import Mathlib

/-!
Shallow embedding of `scripts/performance/llm/finetune_llama31_405b.py`
(NeMo performance launcher for fine-tuning Llama 3.1 405B).

The script's own logic is configuration plumbing: it builds a training
recipe, applies data/precision overrides, assembles a plugin list, names
the experiment, and submits jobs to a scheduler experiment.  External
collaborators (the recipe builder, perf/logging config setters, the
tokenizer resolver, the pack-metadata file check, the precision-plugin
factory, and the argument sanity check) live outside this file's source
and are modelled as opaque function parameters collected in `Env`.
The control flow, field mutations and constants below are translated
directly from the script.
-/

namespace FinetuneLlama405B

/-- CLI arguments consumed by the script (fields the script reads). -/
structure Args where
  finetuning : String
  compute_dtype : String
  gpu : String
  gpus_per_node : Nat
  max_steps : Nat
  tensorboard : Bool
  wandb : Bool
  wandb_prj_name : String
  wandb_job_name : String
  account : String
  partition : String
  log_dir : String
  time_limit : String
  container_image : String
  hf_token : Option String
  nemo_home : String
  wandb_key : String
  enable_nsys : Bool
  dryrun : Bool
deriving Repr, DecidableEq

/-- Numeric-precision plugin attached at `recipe.trainer.plugins`.
`kind` is the identity of the configuration (e.g. source BF16 vs the
mixed 16/8-bit configuration); `grad_reduce_in_fp32` is the field the
script mutates. -/
structure PrecisionPlugin where
  kind : String
  grad_reduce_in_fp32 : Bool
deriving Repr, DecidableEq

/-- The recipe's data module: `recipe.data` in the script.  `fn_or_cls`
models the Python `__fn_or_cls__` class identity. -/
structure DataModule where
  fn_or_cls : String
  tokenizer : Option String
  force_redownload : Bool
deriving Repr, DecidableEq

/-- The recipe's trainer section (`recipe.trainer`). -/
structure Trainer where
  plugins : PrecisionPlugin
deriving Repr, DecidableEq

/-- The training recipe object the script mutates in place. -/
structure Recipe where
  data : DataModule
  trainer : Trainer
deriving Repr, DecidableEq

/-- Class identity of the Squad data module
(`nemo.collections.llm.gpt.data.squad.SquadDataModule`). -/
def SquadDataModule : String := "SquadDataModule"

/-- `HF_MODEL_URI = "meta-llama/Llama-3.1-405B"` from the script. -/
def HF_MODEL_URI : String := "meta-llama/Llama-3.1-405B"

/-- `SKIP_IMPORT = False` from the script: an import sub-job is always
scheduled. -/
def SKIP_IMPORT : Bool := false

/-- External collaborators called by `override_recipe_configs`, treated
as opaque functions (they live outside this script's source):
`finetune_recipe(peft_scheme, performance_mode)`,
`set_primary_perf_configs(recipe, scheme, num_nodes, gpus_per_node, mbs,
gbs, max_steps, tp, pp, cp, vp, ep, enable_cuda_graphs)`,
`set_exp_logging_configs(recipe, scheme, domain, family, tensorboard,
wandb, wandb_prj_name, wandb_job_name)`, `hf_tokenizer(uri)`,
`isfile_train_pack_metadata(uri, data)` and the
`bf16_with_fp8_mixed()` precision-plugin factory. -/
structure Env where
  finetune_recipe : String → Bool → Recipe
  set_primary_perf_configs :
    Recipe → String → Nat → Nat → Nat → Nat → Nat → Nat → Nat → Nat → Nat → Nat → Bool → Recipe
  set_exp_logging_configs :
    Recipe → String → String → String → Bool → Bool → String → String → Recipe
  hf_tokenizer : String → String
  isfile_train_pack_metadata : String → DataModule → Bool
  bf16_with_fp8_mixed : PrecisionPlugin

/-- Python's `str.lower()` on the ASCII strings the script compares:
lowercase every character. -/
def py_lower (s : String) : String :=
  String.mk (s.data.map Char.toLower)

/-- `finetuning_scheme = "none" if args.finetuning == "sft" else
args.finetuning`. -/
def finetuning_scheme (args : Args) : String :=
  if args.finetuning == "sft" then "none" else args.finetuning

/-- `recipe = finetune_recipe(peft_scheme=finetuning_scheme,
performance_mode=True)`. -/
def base_recipe (env : Env) (args : Args) : Recipe :=
  env.finetune_recipe (finetuning_scheme args) true

/-- The recipe after `set_primary_perf_configs` and
`set_exp_logging_configs`, i.e. just before the data-module and
compute-dtype override block. -/
def recipe_after_logging (env : Env) (args : Args)
    (num_nodes mbs gbs tp_size pp_size cp_size vp_size ep_size : Nat)
    (enable_cuda_graphs : Bool) : Recipe :=
  let scheme := finetuning_scheme args
  let recipe := base_recipe env args
  let recipe := env.set_primary_perf_configs recipe scheme num_nodes args.gpus_per_node
    mbs gbs args.max_steps tp_size pp_size cp_size vp_size ep_size enable_cuda_graphs
  env.set_exp_logging_configs recipe scheme "llm" "llama3"
    args.tensorboard args.wandb args.wandb_prj_name args.wandb_job_name

/-- The recipe after `recipe.data.tokenizer = hf_tokenizer(HF_MODEL_URI)`. -/
def recipe_after_tokenizer (env : Env) (args : Args)
    (num_nodes mbs gbs tp_size pp_size cp_size vp_size ep_size : Nat)
    (enable_cuda_graphs : Bool) : Recipe :=
  let recipe := recipe_after_logging env args num_nodes mbs gbs tp_size pp_size
    cp_size vp_size ep_size enable_cuda_graphs
  { recipe with data := { recipe.data with tokenizer := some (env.hf_tokenizer HF_MODEL_URI) } }

/-- `override_recipe_configs` from the script: build the base recipe,
apply perf and logging configs, set the tokenizer, conditionally force
dataset re-download for `SquadDataModule` without packed metadata, and
for fp8 compute dtype replace the trainer precision plugins with
`bf16_with_fp8_mixed()` and set `grad_reduce_in_fp32 = False`. -/
def override_recipe_configs (env : Env) (args : Args)
    (num_nodes mbs gbs tp_size pp_size cp_size vp_size ep_size : Nat)
    (enable_cuda_graphs : Bool) : Recipe :=
  let recipe := recipe_after_tokenizer env args num_nodes mbs gbs tp_size pp_size
    cp_size vp_size ep_size enable_cuda_graphs
  let recipe :=
    if recipe.data.fn_or_cls == SquadDataModule
        && !(env.isfile_train_pack_metadata HF_MODEL_URI recipe.data) then
      { recipe with data := { recipe.data with force_redownload := true } }
    else recipe
  if py_lower args.compute_dtype == "fp8" then
    { recipe with trainer := { recipe.trainer with
        plugins := { env.bf16_with_fp8_mixed with grad_reduce_in_fp32 := false } } }
  else recipe

/-- Monitoring/environment plugins the script can attach:
`PerfEnvPlugin(enable_vboost, nccl_pp_comm_chunksize)` and
`NsysPlugin(start_step, end_step)`. -/
inductive Plugin where
  | perfEnv (enable_vboost : Bool) (nccl_pp_comm_chunksize : Option Nat)
  | nsys (start_step end_step : Nat)
deriving Repr, DecidableEq

/-- The plugin list built in `__main__`:
`[PerfEnvPlugin(enable_vboost=True, nccl_pp_comm_chunksize=2097152 if
pp_size > 1 else None)]`, plus `NsysPlugin(start_step=5, end_step=6)`
when `args.enable_nsys`. -/
def build_plugins (args : Args) (pp_size : Nat) : List Plugin :=
  let plugins := [Plugin.perfEnv true (if pp_size > 1 then some 2097152 else none)]
  if args.enable_nsys then plugins ++ [Plugin.nsys 5 6] else plugins

/-- `exp_config = f"..nodes_tp.._pp.._cp.._vp.._..mbs_..gbs"`. -/
def exp_config (num_nodes tp_size pp_size cp_size vp_size mbs gbs : Nat) : String :=
  s!"{num_nodes}nodes_tp{tp_size}_pp{pp_size}_cp{cp_size}_vp{vp_size}_{mbs}mbs_{gbs}gbs"

/-- `splitext(basename(__file__))[0]` for this script. -/
def script_basename : String := "finetune_llama31_405b"

/-- `exp_name = f"{args.finetuning}_{script}_{args.compute_dtype}_{exp_config}"`. -/
def exp_name (args : Args) (num_nodes mbs gbs tp_size pp_size cp_size vp_size : Nat) : String :=
  let finetuning := args.finetuning
  let compute_dtype := args.compute_dtype
  let cfg := exp_config num_nodes tp_size pp_size cp_size vp_size mbs gbs
  s!"{finetuning}_{script_basename}_{compute_dtype}_{cfg}"

/-- Observable events of one invocation of the script's `__main__`, in
program order. -/
inductive Event where
  | validationError
  | configsResolved
  | recipeBuilt
  | executorBuilt
  | preconditionError
  | enqueueImport
  | enqueueTrain
  | runJob (sequential detach : Bool)
  | dryrunCalled
deriving Repr, DecidableEq

/-- Events inside the `with run.Experiment(...)` block: assert the HF
token and enqueue the import job (since `SKIP_IMPORT` is false), enqueue
the training job, then either `exp.run(sequential=True, detach=True)` or
`exp.dryrun()`. -/
def submit_events (hf_token : Option String) (dryrun : Bool) : List Event :=
  let finish := if dryrun then [Event.dryrunCalled] else [Event.runJob true true]
  if SKIP_IMPORT then
    Event.enqueueTrain :: finish
  else
    match hf_token with
    | none => [Event.preconditionError]
    | some _ => Event.enqueueImport :: Event.enqueueTrain :: finish

/-- Event trace of `__main__`: `args_sanity_check` runs first (modelled
as the opaque predicate `sanity_ok`; an exception yields
`validationError` and nothing else happens), then configs are resolved,
the recipe and the executor are built, and submission proceeds. -/
def main_trace (sanity_ok : Args → Bool) (args : Args) : List Event :=
  if sanity_ok args then
    Event.configsResolved :: Event.recipeBuilt :: Event.executorBuilt ::
      submit_events args.hf_token args.dryrun
  else
    [Event.validationError]

/-- The subsequence of job-enqueue events of a trace. -/
def enqueues (t : List Event) : List Event :=
  t.filter fun e => e == Event.enqueueImport || e == Event.enqueueTrain

/-! Concrete fixtures used by witnesses and counterexamples. -/

/-- A concrete, fully-determined environment of external collaborators. -/
def envA : Env where
  finetune_recipe := fun scheme pm =>
    { data := { fn_or_cls := SquadDataModule, tokenizer := none, force_redownload := false },
      trainer := { plugins := { kind := scheme, grad_reduce_in_fp32 := pm } } }
  set_primary_perf_configs := fun r _ _ _ _ _ _ _ _ _ _ _ _ => r
  set_exp_logging_configs := fun r _ _ _ _ _ _ _ => r
  hf_tokenizer := fun uri => uri
  isfile_train_pack_metadata := fun _ _ => false
  bf16_with_fp8_mixed := { kind := "bf16_with_fp8_mixed", grad_reduce_in_fp32 := true }

/-- A concrete environment whose base recipe has `grad_reduce_in_fp32`
disabled and whose pack metadata file exists. -/
def envB : Env where
  finetune_recipe := fun scheme _ =>
    { data := { fn_or_cls := "FineTuningDataModule", tokenizer := none, force_redownload := false },
      trainer := { plugins := { kind := scheme, grad_reduce_in_fp32 := false } } }
  set_primary_perf_configs := fun r _ _ _ _ _ _ _ _ _ _ _ _ => r
  set_exp_logging_configs := fun r _ _ _ _ _ _ _ => r
  hf_tokenizer := fun uri => uri
  isfile_train_pack_metadata := fun _ _ => true
  bf16_with_fp8_mixed := { kind := "bf16_with_fp8_mixed", grad_reduce_in_fp32 := true }

/-- Concrete fp8 arguments. -/
def argsFp8 : Args where
  finetuning := "sft"
  compute_dtype := "fp8"
  gpu := "h100"
  gpus_per_node := 8
  max_steps := 100
  tensorboard := false
  wandb := false
  wandb_prj_name := "nemo"
  wandb_job_name := "job"
  account := "acct"
  partition := "batch"
  log_dir := "/logs"
  time_limit := "00:30:00"
  container_image := "nemo:dev"
  hf_token := some "token"
  nemo_home := "/nemo"
  wandb_key := ""
  enable_nsys := false
  dryrun := false

/-- Concrete bf16 arguments. -/
def argsBf16 : Args := { argsFp8 with compute_dtype := "bf16" }

/-- Concrete lora arguments. -/
def argsLora : Args := { argsFp8 with finetuning := "lora" }

/-- Concrete arguments with no HF token. -/
def argsNoToken : Args := { argsFp8 with hf_token := none }

/-- Concrete dry-run arguments. -/
def argsDry : Args := { argsFp8 with dryrun := true }

/-- Concrete arguments with nsys profiling enabled. -/
def argsNsys : Args := { argsFp8 with enable_nsys := true }

/-! Theorems, one per claim. -/

/-- C1 counterexample: with fp8 compute dtype the override step sets
`grad_reduce_in_fp32` to `false`, not `true` — even when the
`bf16_with_fp8_mixed` factory (here `envA`) enables it.  The claim that
the result always has `grad_reduce_in_fp32 = true` fails at this
concrete input. -/
theorem fp8_grad_reduce_counterexample :
    argsFp8.compute_dtype = "fp8" ∧
    (override_recipe_configs envA argsFp8 18 1 256 8 9 2 7 1 false).trainer.plugins.grad_reduce_in_fp32
      ≠ true := by
  constructor
  · rfl
  · decide

/-- C1 (amended): for every environment and argument set whose compute
dtype lowercases to "fp8", the override step replaces the trainer
precision plugins with the `bf16_with_fp8_mixed` configuration with
`grad_reduce_in_fp32` set to `false` — even if that configuration (or
the base plugin) previously had it enabled. -/
theorem fp8_replaces_precision_plugin (env : Env) (args : Args)
    (num_nodes mbs gbs tp_size pp_size cp_size vp_size ep_size : Nat)
    (enable_cuda_graphs : Bool)
    (h : py_lower args.compute_dtype = "fp8") :
    (override_recipe_configs env args num_nodes mbs gbs tp_size pp_size cp_size
        vp_size ep_size enable_cuda_graphs).trainer.plugins
      = { env.bf16_with_fp8_mixed with grad_reduce_in_fp32 := false } := by
  unfold override_recipe_configs
  have hb : (py_lower args.compute_dtype == "fp8") = true := by
    simp [h]
  simp only [hb, if_true]

/-- C1 witness: the amended theorem at a concrete fp8 input. -/
theorem fp8_replaces_precision_plugin_witness :
    (override_recipe_configs envA argsFp8 18 1 256 8 9 2 7 1 false).trainer.plugins
      = { envA.bf16_with_fp8_mixed with grad_reduce_in_fp32 := false } :=
  fp8_replaces_precision_plugin envA argsFp8 18 1 256 8 9 2 7 1 false (by decide)

/-- C10: when the compute dtype (compared case-insensitively) is not
"fp8", the data-and-precision override step leaves the whole trainer
section — in particular the precision plugins and their
`grad_reduce_in_fp32` — exactly as it was after the perf/logging
configuration. -/
theorem non_fp8_trainer_unchanged (env : Env) (args : Args)
    (num_nodes mbs gbs tp_size pp_size cp_size vp_size ep_size : Nat)
    (enable_cuda_graphs : Bool)
    (h : py_lower args.compute_dtype ≠ "fp8") :
    (override_recipe_configs env args num_nodes mbs gbs tp_size pp_size cp_size
        vp_size ep_size enable_cuda_graphs).trainer
      = (recipe_after_logging env args num_nodes mbs gbs tp_size pp_size cp_size
        vp_size ep_size enable_cuda_graphs).trainer := by
  unfold override_recipe_configs recipe_after_tokenizer
  have hb : (py_lower args.compute_dtype == "fp8") = false := by
    simp [h]
  simp only [hb, Bool.false_eq_true, if_false]
  split <;> rfl

/-- C10 witness: concrete bf16 input, trainer untouched. -/
theorem non_fp8_trainer_unchanged_witness :
    (override_recipe_configs envA argsBf16 18 1 256 8 9 2 7 1 false).trainer
      = (recipe_after_logging envA argsBf16 18 1 256 8 9 2 7 1 false).trainer :=
  non_fp8_trainer_unchanged envA argsBf16 18 1 256 8 9 2 7 1 false (by decide)

/-- C9: before obtaining the base recipe, fine-tuning scheme "sft" is
mapped to peft scheme "none", any other scheme is passed through
unchanged, and the recipe is always requested with performance mode
enabled (second argument `true`). -/
theorem sft_maps_to_none (env : Env) (args : Args) :
    (args.finetuning = "sft" → base_recipe env args = env.finetune_recipe "none" true) ∧
    (args.finetuning ≠ "sft" → base_recipe env args = env.finetune_recipe args.finetuning true) := by
  constructor
  · intro h
    simp [base_recipe, finetuning_scheme, h]
  · intro h
    simp [base_recipe, finetuning_scheme, h]

/-- C9 witness: "sft" becomes "none", "lora" stays "lora". -/
theorem sft_maps_to_none_witness :
    base_recipe envA argsFp8 = envA.finetune_recipe "none" true ∧
    base_recipe envA argsLora = envA.finetune_recipe "lora" true :=
  ⟨(sft_maps_to_none envA argsFp8).1 rfl,
   (sft_maps_to_none envA argsLora).2 (by decide)⟩

/-- C5: `force_redownload` becomes `true` exactly when the data module
is the `SquadDataModule` variant and no packed training metadata file
exists; in every other case the flag keeps the value it had before the
override block (the value after tokenizer assignment, which itself never
touches the flag). -/
theorem force_redownload_policy (env : Env) (args : Args)
    (num_nodes mbs gbs tp_size pp_size cp_size vp_size ep_size : Nat)
    (enable_cuda_graphs : Bool) :
    (((recipe_after_tokenizer env args num_nodes mbs gbs tp_size pp_size cp_size
          vp_size ep_size enable_cuda_graphs).data.fn_or_cls = SquadDataModule ∧
      env.isfile_train_pack_metadata HF_MODEL_URI
          (recipe_after_tokenizer env args num_nodes mbs gbs tp_size pp_size cp_size
            vp_size ep_size enable_cuda_graphs).data = false) →
      (override_recipe_configs env args num_nodes mbs gbs tp_size pp_size cp_size
          vp_size ep_size enable_cuda_graphs).data.force_redownload = true) ∧
    (¬((recipe_after_tokenizer env args num_nodes mbs gbs tp_size pp_size cp_size
          vp_size ep_size enable_cuda_graphs).data.fn_or_cls = SquadDataModule ∧
      env.isfile_train_pack_metadata HF_MODEL_URI
          (recipe_after_tokenizer env args num_nodes mbs gbs tp_size pp_size cp_size
            vp_size ep_size enable_cuda_graphs).data = false) →
      (override_recipe_configs env args num_nodes mbs gbs tp_size pp_size cp_size
          vp_size ep_size enable_cuda_graphs).data.force_redownload
        = (recipe_after_tokenizer env args num_nodes mbs gbs tp_size pp_size cp_size
            vp_size ep_size enable_cuda_graphs).data.force_redownload) := by
  set r1 := recipe_after_tokenizer env args num_nodes mbs gbs tp_size pp_size cp_size
    vp_size ep_size enable_cuda_graphs with hr1
  constructor
  · rintro ⟨hcls, hfile⟩
    unfold override_recipe_configs
    rw [← hr1]
    have hb : (r1.data.fn_or_cls == SquadDataModule
        && !(env.isfile_train_pack_metadata HF_MODEL_URI r1.data)) = true := by
      simp [hcls, hfile]
    simp only [hb, if_true]
    split <;> rfl
  · intro hneg
    unfold override_recipe_configs
    rw [← hr1]
    have hb : (r1.data.fn_or_cls == SquadDataModule
        && !(env.isfile_train_pack_metadata HF_MODEL_URI r1.data)) = false := by
      rcases Bool.eq_false_or_eq_true (env.isfile_train_pack_metadata HF_MODEL_URI r1.data)
        with hf | hf
      · simp [hf]
      · have : ¬ r1.data.fn_or_cls = SquadDataModule := fun hc => hneg ⟨hc, hf⟩
        simp [this]
    simp only [hb, Bool.false_eq_true, if_false]
    split <;> rfl

/-- C5 witness: with `envA` (Squad data module, no metadata file) the
flag is forced on; with `envB` (non-Squad module, metadata present) it
keeps its prior value. -/
theorem force_redownload_policy_witness :
    (override_recipe_configs envA argsBf16 18 1 256 8 9 2 7 1 false).data.force_redownload
        = true ∧
    (override_recipe_configs envB argsBf16 18 1 256 8 9 2 7 1 false).data.force_redownload
        = (recipe_after_tokenizer envB argsBf16 18 1 256 8 9 2 7 1 false).data.force_redownload :=
  ⟨(force_redownload_policy envA argsBf16 18 1 256 8 9 2 7 1 false).1 (by constructor <;> decide),
   (force_redownload_policy envB argsBf16 18 1 256 8 9 2 7 1 false).2 (by decide)⟩

/-- C2: in every invocation (checkpoint import is always needed since
`SKIP_IMPORT` is false): any enqueued training job is preceded by
the import job (the enqueue subsequence is either empty or exactly
`[import, train]`); when validation passes and the HF token is absent,
the invocation stops at a precondition error with no job enqueued;
when validation passes and a token is present, both jobs are enqueued
with the import job first. -/
theorem import_enqueued_before_train (sanity_ok : Args → Bool) (args : Args) :
    (enqueues (main_trace sanity_ok args) = [] ∨
      enqueues (main_trace sanity_ok args) = [Event.enqueueImport, Event.enqueueTrain]) ∧
    (sanity_ok args = true → args.hf_token = none →
      main_trace sanity_ok args
        = [Event.configsResolved, Event.recipeBuilt, Event.executorBuilt,
           Event.preconditionError]) ∧
    (sanity_ok args = true → ∀ t, args.hf_token = some t →
      enqueues (main_trace sanity_ok args)
        = [Event.enqueueImport, Event.enqueueTrain]) := by
  unfold main_trace submit_events SKIP_IMPORT enqueues
  rcases hs : sanity_ok args with _ | _
  · simp [hs]
  · rcases htok : args.hf_token with _ | t
    · simp [hs, htok]
    · rcases hd : args.dryrun with _ | _ <;> simp [hs, htok, hd]

/-- C2 witness: with the token absent, validation passing, the trace
stops at the precondition error; with a token, the import job precedes
the training job. -/
theorem import_enqueued_before_train_witness :
    main_trace (fun _ => true) argsNoToken
      = [Event.configsResolved, Event.recipeBuilt, Event.executorBuilt,
         Event.preconditionError] ∧
    enqueues (main_trace (fun _ => true) argsFp8)
      = [Event.enqueueImport, Event.enqueueTrain] :=
  ⟨(import_enqueued_before_train (fun _ => true) argsNoToken).2.1 rfl rfl,
   (import_enqueued_before_train (fun _ => true) argsFp8).2.2 rfl "token" rfl⟩

/-- C4 counterexample: an invocation with `dryrun = false` (and the HF
token absent) submits nothing at all — `exp.run` is never reached — so
"otherwise it is submitted exactly once" fails at this concrete
input. -/
theorem dryrun_submission_counterexample :
    argsNoToken.dryrun = false ∧
    (main_trace (fun _ => true) argsNoToken).count (Event.runJob true true) = 0 ∧
    Event.dryrunCalled ∉ main_trace (fun _ => true) argsNoToken := by
  refine ⟨rfl, by decide, by decide⟩

/-- C4 (amended): if the dryrun flag is set the experiment is never
actually scheduled (no `run` event with any flags) and, whenever the
submission stage is reached (validation passes, token present),
`dryrun()` is called; if the flag is clear then — provided validation
passes and the token is present — the experiment is submitted exactly
once, sequentially and detached, and `dryrun()` is never called. -/
theorem dryrun_gates_submission (sanity_ok : Args → Bool) (args : Args) :
    (args.dryrun = true →
      (∀ s d, Event.runJob s d ∉ main_trace sanity_ok args) ∧
      (sanity_ok args = true → args.hf_token ≠ none →
        Event.dryrunCalled ∈ main_trace sanity_ok args)) ∧
    (args.dryrun = false → sanity_ok args = true → args.hf_token ≠ none →
      (main_trace sanity_ok args).count (Event.runJob true true) = 1 ∧
      (∀ s d, ¬(s = true ∧ d = true) → Event.runJob s d ∉ main_trace sanity_ok args) ∧
      Event.dryrunCalled ∉ main_trace sanity_ok args) := by
  unfold main_trace submit_events SKIP_IMPORT
  rcases hs : sanity_ok args with _ | _
  · simp [hs]
  · rcases htok : args.hf_token with _ | t
    · simp [hs, htok]
    · rcases hd : args.dryrun with _ | _ <;> simp +decide [hs, htok, hd]

/-- C4 witness: dry-run invocation calls `dryrun()` and schedules
nothing; non-dry-run invocation with a token runs exactly once. -/
theorem dryrun_gates_submission_witness :
    Event.dryrunCalled ∈ main_trace (fun _ => true) argsDry ∧
    (main_trace (fun _ => true) argsFp8).count (Event.runJob true true) = 1 :=
  ⟨((dryrun_gates_submission (fun _ => true) argsDry).1 rfl).2 rfl (by decide),
   ((dryrun_gates_submission (fun _ => true) argsFp8).2 rfl rfl (by decide)).1⟩

/-- C6: when argument validation fails, the invocation produces only the
validation error: no configuration resolution, recipe or executor
construction, and no job enqueue or run ever happens. -/
theorem validation_failure_is_fatal (sanity_ok : Args → Bool) (args : Args)
    (h : sanity_ok args = false) :
    main_trace sanity_ok args = [Event.validationError] ∧
    Event.configsResolved ∉ main_trace sanity_ok args ∧
    Event.recipeBuilt ∉ main_trace sanity_ok args ∧
    Event.executorBuilt ∉ main_trace sanity_ok args ∧
    Event.enqueueImport ∉ main_trace sanity_ok args ∧
    Event.enqueueTrain ∉ main_trace sanity_ok args ∧
    (∀ s d, Event.runJob s d ∉ main_trace sanity_ok args) := by
  unfold main_trace
  simp [h]

/-- C6 witness: a concretely failing validation. -/
theorem validation_failure_is_fatal_witness :
    main_trace (fun _ => false) argsFp8 = [Event.validationError] :=
  (validation_failure_is_fatal (fun _ => false) argsFp8 rfl).1

/-- C3: the built plugin list always contains a `PerfEnvPlugin` with
`enable_vboost = true`, and every `PerfEnvPlugin` in the list has
vboost enabled and carries the NCCL pipeline-parallel chunk-size
override of exactly 2097152 bytes precisely when `pp_size > 1`
(otherwise no override). -/
theorem perf_env_plugin_always_present (args : Args) (pp_size : Nat) :
    (∃ cs, Plugin.perfEnv true cs ∈ build_plugins args pp_size) ∧
    (∀ b cs, Plugin.perfEnv b cs ∈ build_plugins args pp_size →
      b = true ∧ (cs = some 2097152 ↔ 1 < pp_size) ∧ (¬1 < pp_size → cs = none)) := by
  unfold build_plugins
  rcases hn : args.enable_nsys with _ | _ <;>
    rcases Nat.lt_or_ge 1 pp_size with hp | hp
  · simp [hn, hp]
  · simp [hn, Nat.not_lt_of_ge hp]
  · simp [hn, hp]
  · simp [hn, Nat.not_lt_of_ge hp]

/-- C3 witness: chunk-size override present at `pp = 9`, absent at
`pp = 1`. -/
theorem perf_env_plugin_always_present_witness :
    Plugin.perfEnv true (some 2097152) ∈ build_plugins argsFp8 9 ∧
    Plugin.perfEnv true none ∈ build_plugins argsFp8 1 := by
  constructor
  · obtain ⟨cs, hmem⟩ := (perf_env_plugin_always_present argsFp8 9).1
    have hcs := ((perf_env_plugin_always_present argsFp8 9).2 true cs hmem).2.1.mpr (by decide)
    rwa [hcs] at hmem
  · obtain ⟨cs, hmem⟩ := (perf_env_plugin_always_present argsFp8 1).1
    have hcs := ((perf_env_plugin_always_present argsFp8 1).2 true cs hmem).2.2 (by decide)
    rwa [hcs] at hmem

/-- C8: the `NsysPlugin` with its fixed capture window (start step 5,
end step 6) is in the built plugin list exactly when nsys profiling is
requested, and no nsys plugin with any other window ever appears. -/
theorem nsys_plugin_iff_requested (args : Args) (pp_size : Nat) :
    (Plugin.nsys 5 6 ∈ build_plugins args pp_size ↔ args.enable_nsys = true) ∧
    (∀ s e, Plugin.nsys s e ∈ build_plugins args pp_size → s = 5 ∧ e = 6) := by
  unfold build_plugins
  rcases hn : args.enable_nsys with _ | _ <;> simp [hn]

/-- C8 witness: profiling requested puts the step-5..6 profiler in the
list; not requested leaves it out. -/
theorem nsys_plugin_iff_requested_witness :
    Plugin.nsys 5 6 ∈ build_plugins argsNsys 9 ∧
    Plugin.nsys 5 6 ∉ build_plugins argsFp8 9 :=
  ⟨(nsys_plugin_iff_requested argsNsys 9).1.mpr rfl,
   fun hmem => absurd ((nsys_plugin_iff_requested argsFp8 9).1.mp hmem) (by decide)⟩

/-- C7: the experiment name is a deterministic function of the
fine-tuning scheme, the script identity, the compute precision and the
resolved layout: two invocations agreeing on those inputs produce the
same name string, whatever their other arguments. -/
theorem exp_name_deterministic (a₁ a₂ : Args)
    (n₁ m₁ g₁ t₁ p₁ c₁ v₁ n₂ m₂ g₂ t₂ p₂ c₂ v₂ : Nat)
    (hf : a₁.finetuning = a₂.finetuning)
    (hd : a₁.compute_dtype = a₂.compute_dtype)
    (hn : n₁ = n₂) (hm : m₁ = m₂) (hg : g₁ = g₂) (ht : t₁ = t₂)
    (hp : p₁ = p₂) (hc : c₁ = c₂) (hv : v₁ = v₂) :
    exp_name a₁ n₁ m₁ g₁ t₁ p₁ c₁ v₁ = exp_name a₂ n₂ m₂ g₂ t₂ p₂ c₂ v₂ := by
  subst hn hm hg ht hp hc hv
  simp [exp_name, hf, hd]

/-- C7 witness: two argument sets differing in dryrun, profiling and HF
token but agreeing on scheme, precision and layout name the experiment
identically. -/
theorem exp_name_deterministic_witness :
    exp_name argsFp8 18 1 256 8 9 2 7 = exp_name { argsDry with enable_nsys := true, hf_token := none } 18 1 256 8 9 2 7 :=
  exp_name_deterministic argsFp8 { argsDry with enable_nsys := true, hf_token := none }
    18 1 256 8 9 2 7 18 1 256 8 9 2 7 rfl rfl rfl rfl rfl rfl rfl rfl rfl

end FinetuneLlama405B
